import Mathlib

/-!
Shallow embedding of the onboarding relay server (src/server.js and the
variant handlers in src/unnamed/part_000 .. part_004).

Modelling conventions:
* JavaScript strings are modelled as Lean `String`; `s.length` counts
  characters, matching JS UTF-16 length for the ASCII data these handlers
  handle (domains, Slack channel names).
* Possibly-absent JSON fields are `Option` values; a JS falsy test
  `!x` on a string field is `x = none ∨ x = some ""`.
* Each upstream HTTP/Slack call site is given an oracle value describing
  how that call would resolve (returned data, thrown error, ...); a
  handler becomes a pure function of the request and these oracles, and
  additionally records the list of upstream calls it actually issued, so
  that "no upstream call is made" is a provable statement.
-/

namespace Onboarding

/-- JS `str.split(c)` on a list of characters: splits at every occurrence
of `c`, keeping empty segments, and yields `[[]]` on the empty input —
exactly the semantics of JavaScript `String.prototype.split` with a
single-character separator. -/
def splitChar (c : Char) (l : List Char) : List (List Char) :=
  match l with
  | [] => [[]]
  | a :: as =>
    if a = c then
      [] :: splitChar c as
    else
      match splitChar c as with
      | [] => [[a]]
      | b :: bs => (a :: b) :: bs

/-- `domain.split('.')` as a list of strings. -/
def splitDot (s : String) : List String :=
  (splitChar '.' s.data).map (fun cs => String.mk cs)

/-- JS `domain.includes('.')`. -/
def containsDot (s : String) : Bool :=
  s.data.contains '.'

/-- `generateAlternatives` from src/server.js lines 171-189 (identical in
src/unnamed/part_000 lines 137-150): split on `.`; fewer than 2 parts
gives `[]`; otherwise produce the four fixed candidates. -/
def generateAlternatives (domain : String) : List String :=
  let parts := splitDot domain
  if parts.length < 2 then []
  else
    let name := String.intercalate "." parts.dropLast
    let ext := parts.getLastD ""
    [ name ++ "-online." ++ ext
    , name ++ "-web." ++ ext
    , "get-" ++ name ++ "." ++ ext
    , name ++ "-site." ++ ext ]

/-- The JSON body returned by the Porkbun `check` endpoint, as the
handlers read it.  `respAvail` and `respPrice` model the nested
`response.avail` / `response.price` fields such a payload may carry;
no handler under src/ ever reads them. -/
structure RawResponse where
  status : Option String
  available : Option String
  respAvail : Option String
  respPrice : Option String
  pricingRegistration : Option String
  message : Option String
deriving DecidableEq

/-- Outcome of the axios POST to the registrar: either a 2xx with a JSON
body, or a transport failure (timeout, connection error, non-2xx) whose
`err.message` is carried. -/
inductive UpstreamOutcome where
  | response (data : RawResponse)
  | transportError (msg : String)
deriving DecidableEq

/-- JS `data.pricing?.registration || 'N/A'`. -/
def priceOr (data : RawResponse) : String :=
  match data.pricingRegistration with
  | some p => if p = "" then "N/A" else p
  | none => "N/A"

/-- JS `data.message || 'Domain check failed'`. -/
def messageOr (data : RawResponse) : String :=
  match data.message with
  | some m => if m = "" then "Domain check failed" else m
  | none => "Domain check failed"

/-- JSON body of a `/api/check-domain` response (only the fields the
handlers set are modelled; absent field = `none`). -/
structure DomainBody where
  available : Option Bool := none
  domain : Option String := none
  price : Option String := none
  error : Option String := none
  details : Option String := none
  suggestions : Option (List String) := none
deriving DecidableEq

/-- One handled `/api/check-domain` request: HTTP status, JSON body, and
whether the registrar was actually contacted. -/
structure DomainRun where
  status : Nat
  body : DomainBody
  upstreamCalled : Bool
deriving DecidableEq

/-- `checkDomainAvailability` from src/server.js lines 54-109: re-validates
the domain (throwing before any request), else performs the upstream call;
any thrown error is rethrown as `Domain check failed: <msg>`.  The second
component records whether the axios call was issued. -/
def checkDomainAvailability (domain : String) (up : UpstreamOutcome) :
    Except String RawResponse × Bool :=
  if domain = "" ∨ containsDot domain = false ∨ domain.length < 3 then
    (.error "Domain check failed: Invalid domain format", false)
  else
    match up with
    | .response data => (.ok data, true)
    | .transportError msg => (.error ("Domain check failed: " ++ msg), true)

/-- The `/api/check-domain` handler of src/server.js lines 121-166. -/
def checkDomainServer (domainName : Option String) (up : UpstreamOutcome) :
    DomainRun :=
  match domainName with
  | none =>
    { status := 400
      body := { error := some "❌ Please provide a valid domain like example.com"
                details := some "Domain must include a TLD (e.g., .com) and be at least 3 characters long" }
      upstreamCalled := false }
  | some d =>
    if d = "" ∨ containsDot d = false ∨ d.length < 3 then
      { status := 400
        body := { error := some "❌ Please provide a valid domain like example.com"
                  details := some "Domain must include a TLD (e.g., .com) and be at least 3 characters long" }
        upstreamCalled := false }
    else
      match checkDomainAvailability d up with
      | (.ok data, called) =>
        if data.status = some "SUCCESS" then
          let isAvailable := data.available = some "1"
          { status := 200
            body := { available := some isAvailable
                      domain := some d
                      price := some (priceOr data)
                      suggestions := some (if isAvailable then [] else generateAlternatives d) }
            upstreamCalled := called }
        else
          { status := 200
            body := { available := some false
                      domain := some d
                      error := some (messageOr data)
                      suggestions := some (generateAlternatives d) }
            upstreamCalled := called }
      | (.error msg, called) =>
        { status := 500
          body := { error := some "Failed to check domain availability."
                    details := some msg }
          upstreamCalled := called }

/-- The `/api/check-domain` handler of src/unnamed/part_000 lines 45-134.
Differences from src/server.js: the guard omits the `length < 3` test, the
axios call is inlined (so a transport error's `err.message` reaches the
catch unprefixed), and the 500 body includes `suggestions`. -/
def checkDomainPart000 (domainName : Option String) (up : UpstreamOutcome) :
    DomainRun :=
  match domainName with
  | none =>
    { status := 400
      body := { error := some "Invalid domain format" }
      upstreamCalled := false }
  | some d =>
    if d = "" ∨ containsDot d = false then
      { status := 400
        body := { error := some "Invalid domain format" }
        upstreamCalled := false }
    else
      match up with
      | .response data =>
        if data.status = some "SUCCESS" then
          let isAvailable := data.available = some "1"
          { status := 200
            body := { available := some isAvailable
                      domain := some d
                      price := some (priceOr data)
                      suggestions := some (if isAvailable then [] else generateAlternatives d) }
            upstreamCalled := true }
        else
          { status := 200
            body := { available := some false
                      domain := some d
                      error := some (messageOr data)
                      suggestions := some (generateAlternatives d) }
            upstreamCalled := true }
      | .transportError msg =>
        { status := 500
          body := { error := some "Failed to check domain availability"
                    details := some msg
                    suggestions := some (generateAlternatives d) }
          upstreamCalled := true }

/-! ## Slack channel provisioning (src/server.js lines 328-520) -/

/-- ASCII lower-casing, as JS `toLowerCase` acts on the ASCII range.
(Exotic Unicode case mappings, e.g. the Kelvin sign, are outside the
modelled character set; every non-ASCII character is replaced by `-` by
the sanitizer downstream in any case.) -/
def jsToLower (c : Char) : Char :=
  if 65 ≤ c.toNat ∧ c.toNat ≤ 90 then Char.ofNat (c.toNat + 32) else c

/-- Membership in the Slack-allowed class `[a-z0-9-_]` of the regex at
src/server.js line 352. -/
def isAllowedChar (c : Char) : Bool :=
  decide ((97 ≤ c.toNat ∧ c.toNat ≤ 122) ∨ (48 ≤ c.toNat ∧ c.toNat ≤ 57) ∨
    c.toNat = 45 ∨ c.toNat = 95)

/-- `.replace(/[^a-z0-9-_]/g, '-')` acting on one character. -/
def replaceDisallowed (c : Char) : Char :=
  if isAllowedChar c then c else '-'

/-- `sanitizedChannelName` from src/server.js lines 350-353:
`channelName.toLowerCase().replace(/[^a-z0-9-_]/g, '-').substring(0, 80)`. -/
def sanitizeChannelName (s : String) : String :=
  String.mk (((s.data.map jsToLower).map replaceDisallowed).take 80)

/-- JS `Math.floor(Date.now() / 1000).toString().slice(-4)` applied to a
Unix-seconds value: the last four decimal digits (the whole string when
shorter). -/
def lastFourDigits (n : Nat) : String :=
  let s := toString n
  String.mk (s.data.drop (s.data.length - 4))

/-- One upstream Slack Web API call, with the arguments that identify it. -/
inductive SlackCall where
  | authTest
  | create (name : String)
  | list
  | inviteTeam (channel : String)
  | lookupUser (email : String)
  | inviteUser (channel : String) (user : String)
  | postMessage (channel : String) (text : String)
deriving DecidableEq

/-- How the first `conversations.create` call would resolve.
`ok id` is a resolved result with `ok: true` and the new channel id;
`notOk err` is a resolved result with `ok: false` (the handler then throws
a generic `Error`, whose message is not `name_taken`);
`rejected slackError` is a thrown Slack error, with `slackError` the value
the catch block computes as `channelError.data?.error || channelError.message
|| 'unknown error'`. -/
inductive CreateOutcome where
  | ok (id : String)
  | notOk (error : String)
  | rejected (slackError : String)
deriving DecidableEq

/-- How `users.lookupByEmail` would resolve: a found user id, a resolved
response without a usable user, or a thrown error. -/
inductive LookupOutcome where
  | found (userId : String)
  | notFound
  | failed (msg : String)
deriving DecidableEq

/-- Oracles for every upstream call site of the
`/api/create-slack-channel` handler, in program order.  `now` is the Unix
time in seconds observed at the disambiguation step.  The `Bool` fields
record whether the corresponding best-effort call resolves or throws. -/
structure SlackWorld where
  authOk : Bool
  authErr : String
  createOutcome : CreateOutcome
  listOutcome : Except String (List (String × String))
  retryOutcome : Except String String
  now : Nat
  teamInviteOk : Bool
  lookup : LookupOutcome
  clientInviteOk : Bool
  postOk : Bool

/-- The channel-resolution step, src/server.js lines 372-431: try to
create the sanitized channel; on a thrown `name_taken`, list private
channels and match by name; on no match, retry creation once under
`<name>-<last4 of Unix timestamp>`.  Returns the resolved id or the
message of the error the step throws, together with the Slack calls
issued. -/
def resolveChannel (w : SlackWorld) (sanitized : String) :
    Except String String × List SlackCall :=
  match w.createOutcome with
  | .ok id => (.ok id, [.create sanitized])
  | .notOk e =>
    (.error ("Slack API error: Failed to create channel: " ++ e), [.create sanitized])
  | .rejected slackError =>
    if slackError = "name_taken" then
      match w.listOutcome with
      | .error m => (.error ("Could not create or find channel: " ++ m), [.create sanitized, .list])
      | .ok channels =>
        match channels.find? (fun c => c.1 = sanitized) with
        | some c => (.ok c.2, [.create sanitized, .list])
        | none =>
          let newName := sanitized ++ "-" ++ lastFourDigits w.now
          match w.retryOutcome with
          | .ok id => (.ok id, [.create sanitized, .list, .create newName])
          | .error m =>
            (.error ("Could not create or find channel: " ++ m),
             [.create sanitized, .list, .create newName])
    else
      (.error ("Slack API error: " ++ slackError), [.create sanitized])

/-- JSON body of a `/api/create-slack-channel` response (modelled fields). -/
structure ProvisionBody where
  success : Option Bool := none
  channelId : Option String := none
  channelName : Option String := none
  error : Option String := none
  details : Option String := none
deriving DecidableEq

/-- One handled `/api/create-slack-channel` request: HTTP status, body,
and the Slack calls issued, in order. -/
structure ProvisionRun where
  status : Nat
  body : ProvisionBody
  calls : List SlackCall
deriving DecidableEq

/-- JS falsiness of an optional string request field (`!x`). -/
def falsyStr : Option String → Bool
  | none => true
  | some s => s = ""

/-- The welcome-message text of src/server.js lines 480-488, with the
`|| 'Not provided'` defaults for the optional fields. -/
def welcomeMessage (businessName clientName : Option String) (email : String) : String :=
  "\n:wave: Welcome to your dedicated support channel!\n\n*Business:* " ++
    (match businessName with | some b => if b = "" then "Not provided" else b | none => "Not provided") ++
    "\n*Contact:* " ++
    (match clientName with | some c => if c = "" then "Not provided" else c | none => "Not provided") ++
    "\n*Email:* " ++ email ++
    "\n\nOur team will be with you shortly to help with your onboarding process. Feel free to ask any questions here!\n    "

/-- The `/api/create-slack-channel` handler of src/server.js lines
328-520.  `teamMembers` is the `TEAM_MEMBERS` configuration.  Best-effort
steps (team invite, user lookup, client invite, welcome message) are each
wrapped in a `try/catch` that only logs, so their oracles influence no
field of the response. -/
def createSlackChannelServer (teamMembers : List String)
    (channelName userEmail businessName clientName : Option String)
    (w : SlackWorld) : ProvisionRun :=
  if falsyStr channelName ∨ falsyStr userEmail then
    { status := 400
      body := { error := some "❌ Please provide both channelName and userEmail"
                details := some "Both fields are required to create a Slack channel" }
      calls := [] }
  else
    let cn := channelName.getD ""
    let email := userEmail.getD ""
    let sanitized := sanitizeChannelName cn
    if w.authOk = false then
      { status := 500
        body := { error := some "Failed to create Slack channel."
                  details := some ("Slack authentication failed: " ++ w.authErr) }
        calls := [.authTest] }
    else
      match resolveChannel w sanitized with
      | (.error m, cs) =>
        { status := 500
          body := { error := some "Failed to create Slack channel."
                    details := some m }
          calls := .authTest :: cs }
      | (.ok channelId, cs) =>
        let teamCalls := if teamMembers.isEmpty then [] else [SlackCall.inviteTeam channelId]
        let lookupCalls :=
          match w.lookup with
          | .found uid => [SlackCall.lookupUser email, SlackCall.inviteUser channelId uid]
          | _ => [SlackCall.lookupUser email]
        { status := 200
          body := { success := some true
                    channelId := some channelId
                    channelName := some cn }
          calls := .authTest :: cs ++ teamCalls ++ lookupCalls ++
            [.postMessage channelId (welcomeMessage businessName clientName email)] }

/-- Oracles for `getOrCreateChannel` of src/unnamed/part_000: the
`conversations.list` call and the (at most one) `conversations.create`
call. -/
structure GOCWorld where
  listOutcome : Except String (List (String × String))
  createOutcome : Except String String

/-- `getOrCreateChannel` from src/unnamed/part_000 lines 334-349: list
private channels first; return a name-matching channel's id if present;
otherwise create the channel.  Thrown errors propagate.  The second
component records the Slack calls issued, in order. -/
def getOrCreateChannel (w : GOCWorld) (channelName : String) :
    Except String String × List SlackCall :=
  match w.listOutcome with
  | .error m => (.error m, [.list])
  | .ok channels =>
    match channels.find? (fun c => c.1 = channelName) with
    | some c => (.ok c.2, [.list])
    | none =>
      match w.createOutcome with
      | .ok id => (.ok id, [.list, .create channelName])
      | .error m => (.error m, [.list, .create channelName])

/-! ## Price-gate mode (spec §4.1, not present in any file under src/) -/

/-- Value of a decimal digit character, if it is one. -/
def digitVal (c : Char) : Option Nat :=
  if 48 ≤ c.toNat ∧ c.toNat ≤ 57 then some (c.toNat - 48) else none

/-- Accumulating base-10 reading of a digit string. -/
def decNatAux : List Char → Nat → Option Nat
  | [], acc => some acc
  | c :: cs, acc =>
    match digitVal c with
    | some d => decNatAux cs (acc * 10 + d)
    | none => none

/-- A non-empty run of decimal digits as a number. -/
def decNat (cs : List Char) : Option Nat :=
  match cs with
  | [] => none
  | _ => decNatAux cs 0

/-- Modelled from the spec: parsing a price string such as `"20.00"` as a
decimal number.  Digits, optionally followed by `.` and further digits;
anything else fails.  (No src/ file contains the price-gate variant; this
definition and the two below reconstruct it from spec §4.1/§4.3.) -/
def parseDecimal (s : String) : Option ℚ :=
  match splitChar '.' s.data with
  | [intPart] =>
    match decNat intPart with
    | some i => some (i : ℚ)
    | none => none
  | [intPart, fracPart] =>
    match decNat intPart, decNat fracPart with
    | some i, some f => some ((i : ℚ) + (f : ℚ) / ((10 : ℚ) ^ fracPart.length))
    | _, _ => none
  | _ => none

/-- Modelled from the spec: the price field the gate parses —
`pricing.registration` (or `response.price`). -/
def priceSource (data : RawResponse) : Option String :=
  match data.pricingRegistration with
  | some p => some p
  | none => data.respPrice

/-- Modelled from the spec: the availability evaluator with the optional
price-gate mode (spec §4.1).  Under upstream success with an affirmative
availability flag, an enabled gate parses the price and forces
`available := false` with reason `"price"` when parsing fails or the value
exceeds the ceiling (observed default 15.00). -/
def evaluateWithPriceGate (gateEnabled : Bool) (ceiling : ℚ)
    (data : RawResponse) : Bool × Option String :=
  if data.status = some "SUCCESS" then
    if data.available = some "1" ∨ data.respAvail = some "yes" then
      if gateEnabled then
        match (priceSource data).bind parseDecimal with
        | none => (false, some "price")
        | some v => if v > ceiling then (false, some "price") else (true, none)
      else (true, none)
    else (false, none)
  else (false, none)

/-! ## Concrete fixtures used by witnesses and counterexamples -/

/-- An upstream payload of the nested shape: success status, no flat
`available` field, `response.avail = "yes"`. -/
def nestedYesResponse : RawResponse :=
  { status := some "SUCCESS", available := none, respAvail := some "yes"
    respPrice := none, pricingRegistration := none, message := none }

/-- The flat observed success payload: `available = "1"`. -/
def availOneResponse : RawResponse :=
  { status := some "SUCCESS", available := some "1", respAvail := none
    respPrice := none, pricingRegistration := some "11.98", message := none }

/-- An upstream business-level failure payload. -/
def upstreamErrorResponse : RawResponse :=
  { status := some "ERROR", available := none, respAvail := none
    respPrice := none, pricingRegistration := none
    message := some "All checks are currently rate limited" }

/-- A success payload with an affirmative flag and price `"20.00"`. -/
def pricedResponse : RawResponse :=
  { status := some "SUCCESS", available := some "1", respAvail := none
    respPrice := none, pricingRegistration := some "20.00", message := none }

/-- A success payload with an affirmative flag and no price field. -/
def noPriceResponse : RawResponse :=
  { status := some "SUCCESS", available := some "1", respAvail := none
    respPrice := none, pricingRegistration := none, message := none }

/-- A Slack world where every call resolves: the first create returns
channel id `C1`. -/
def allOkWorld : SlackWorld :=
  { authOk := true, authErr := "", createOutcome := .ok "C1"
    listOutcome := .ok [], retryOutcome := .ok "C9", now := 1714321234
    teamInviteOk := true, lookup := .notFound, clientInviteOk := true
    postOk := true }

/-- A Slack world where creation is rejected with `name_taken` and the
channel list contains a channel named `acme-corp` with id `C42`. -/
def takenWorld : SlackWorld :=
  { authOk := true, authErr := ""
    createOutcome := .rejected "name_taken"
    listOutcome := .ok [("acme-corp", "C42")], retryOutcome := .ok "C99"
    now := 1714321234, teamInviteOk := true, lookup := .notFound
    clientInviteOk := true, postOk := true }

/-- A part_000 world where listing succeeds with no channels and
creation would succeed outright. -/
def gocWorld : GOCWorld :=
  { listOutcome := .ok [], createOutcome := .ok "C123" }

/-! ## Helper lemmas -/

theorem splitChar_ne_nil (c : Char) (l : List Char) : splitChar c l ≠ [] := by
  induction l with
  | nil => simp [splitChar]
  | cons a as _ih =>
    rw [splitChar]
    split
    · exact List.cons_ne_nil _ _
    · split
      · exact List.cons_ne_nil _ _
      · exact List.cons_ne_nil _ _

theorem two_le_length_splitChar (c : Char) (l : List Char) (h : c ∈ l) :
    2 ≤ (splitChar c l).length := by
  induction l with
  | nil => cases h
  | cons a as ih =>
    rw [splitChar]
    by_cases hac : a = c
    · rw [if_pos hac]
      cases hr : splitChar c as with
      | nil => exact absurd hr (splitChar_ne_nil c as)
      | cons b bs => simp
    · rw [if_neg hac]
      have hmem : c ∈ as := by
        rcases List.mem_cons.mp h with h1 | h1
        · exact absurd h1.symm hac
        · exact h1
      have h2 := ih hmem
      cases hr : splitChar c as with
      | nil => exact absurd hr (splitChar_ne_nil c as)
      | cons b bs =>
        rw [hr] at h2
        simpa using h2

theorem two_le_length_splitDot (s : String) (h : containsDot s = true) :
    2 ≤ (splitDot s).length := by
  have hmem : '.' ∈ s.data := by
    simpa [containsDot] using h
  simpa [splitDot] using two_le_length_splitChar '.' s.data hmem

theorem generateAlternatives_ne_nil (d : String) (h : containsDot d = true) :
    generateAlternatives d ≠ [] := by
  have h2 := two_le_length_splitDot d h
  rw [generateAlternatives]
  rw [if_neg (by omega)]
  exact List.cons_ne_nil _ _

theorem resolveChannel_calls_head (w : SlackWorld) (s : String) :
    (resolveChannel w s).2.head? = some (.create s) := by
  rcases hco : w.createOutcome with id | e | er
  · simp [resolveChannel, hco]
  · simp [resolveChannel, hco]
  · by_cases he : er = "name_taken"
    · rcases hl : w.listOutcome with m | chans
      · simp [resolveChannel, hco, he, hl]
      · rcases hf : chans.find? (fun c => c.1 = s) with _ | c
        · rcases hr : w.retryOutcome with m | id
          · simp [resolveChannel, hco, he, hl, hf, hr]
          · simp [resolveChannel, hco, he, hl, hf, hr]
        · simp [resolveChannel, hco, he, hl, hf]
    · simp [resolveChannel, hco, he]

theorem resolveChannel_no_invite (w : SlackWorld) (s ch uid : String) :
    SlackCall.inviteUser ch uid ∉ (resolveChannel w s).2 := by
  rcases hco : w.createOutcome with id | e | er
  · simp [resolveChannel, hco]
  · simp [resolveChannel, hco]
  · by_cases he : er = "name_taken"
    · rcases hl : w.listOutcome with m | chans
      · simp [resolveChannel, hco, he, hl]
      · rcases hf : chans.find? (fun c => c.1 = s) with _ | c
        · rcases hr : w.retryOutcome with m | id
          · simp [resolveChannel, hco, he, hl, hf, hr]
          · simp [resolveChannel, hco, he, hl, hf, hr]
        · simp [resolveChannel, hco, he, hl, hf]
    · simp [resolveChannel, hco, he]

theorem parseDecimal_twenty : parseDecimal "20.00" = some 20 := by
  have h : splitChar '.' "20.00".data = [['2', '0'], ['0', '0']] := by decide
  have h1 : decNat ['2', '0'] = some 20 := by decide
  have h2 : decNat ['0', '0'] = some 0 := by decide
  simp only [parseDecimal, h, h1, h2, List.length_cons, List.length_nil]
  norm_num

theorem isAllowedChar_replaceDisallowed (c : Char) :
    isAllowedChar (replaceDisallowed c) = true := by
  by_cases h : isAllowedChar c = true
  · simp [replaceDisallowed, h]
  · simp only [replaceDisallowed]
    rw [if_neg (by simpa using h)]
    decide

theorem jsToLower_of_allowed (c : Char) (h : isAllowedChar c = true) :
    jsToLower c = c := by
  simp only [isAllowedChar, decide_eq_true_eq] at h
  simp only [jsToLower]
  rw [if_neg (by omega)]

theorem replaceDisallowed_of_allowed (c : Char) (h : isAllowedChar c = true) :
    replaceDisallowed c = c := by
  simp [replaceDisallowed, h]

theorem sanitize_char_idem (c : Char) :
    replaceDisallowed (jsToLower (replaceDisallowed (jsToLower c))) =
      replaceDisallowed (jsToLower c) := by
  have hd := isAllowedChar_replaceDisallowed (jsToLower c)
  rw [jsToLower_of_allowed _ hd, replaceDisallowed_of_allowed _ hd]

/-! ## Claim theorems -/

/-- C5 (confirmed): `generateAlternatives` is a pure function; for every
domain whose dot-split has at least two labels it returns exactly the four
strings `name-online.ext`, `name-web.ext`, `get-name.ext`, `name-site.ext`
in that order, where `name` joins all labels but the last with `.` and
`ext` is the last label; for every domain with fewer than two labels it
returns the empty list. -/
theorem generateAlternatives_contract (domain : String) :
    (2 ≤ (splitDot domain).length →
      generateAlternatives domain =
        [ String.intercalate "." (splitDot domain).dropLast ++ "-online." ++ (splitDot domain).getLastD ""
        , String.intercalate "." (splitDot domain).dropLast ++ "-web." ++ (splitDot domain).getLastD ""
        , "get-" ++ String.intercalate "." (splitDot domain).dropLast ++ "." ++ (splitDot domain).getLastD ""
        , String.intercalate "." (splitDot domain).dropLast ++ "-site." ++ (splitDot domain).getLastD "" ]) ∧
    ((splitDot domain).length < 2 → generateAlternatives domain = []) := by
  constructor
  · intro h
    simp only [generateAlternatives]
    rw [if_neg (by omega)]
  · intro h
    simp only [generateAlternatives]
    rw [if_pos h]

/-- C5 witness: the contract evaluated at `example.com`. -/
theorem generateAlternatives_contract_witness :
    2 ≤ (splitDot "example.com").length ∧
    generateAlternatives "example.com" =
      ["example-online.com", "example-web.com", "get-example.com", "example-site.com"] :=
  ⟨by decide, by rw [(generateAlternatives_contract "example.com").1 (by decide)]; decide⟩

/-- C2 counterexample: in src/server.js, a transport failure on the
domain check produces a 500 response whose body carries no `suggestions`
field at all, contradicting the claim that every such response contains a
non-empty suggestions list. -/
theorem server_timeout_has_no_suggestions :
    (checkDomainServer (some "example.com")
      (.transportError "timeout of 10000ms exceeded")).status = 500 ∧
    (checkDomainServer (some "example.com")
      (.transportError "timeout of 10000ms exceeded")).body.suggestions = none := by
  decide

/-- C2 (corrected): any transport failure on a validated domain yields a
500 response in both variants; in src/unnamed/part_000 the body carries
the non-empty generated `suggestions` list, while in src/server.js the
500 body has no suggestions field. -/
theorem transport_failure_maps_to_500 (d m : String)
    (hne : d ≠ "") (hdot : containsDot d = true) (hlen : 3 ≤ d.length) :
    (checkDomainServer (some d) (.transportError m)).status = 500 ∧
    (checkDomainServer (some d) (.transportError m)).body.suggestions = none ∧
    (checkDomainPart000 (some d) (.transportError m)).status = 500 ∧
    (checkDomainPart000 (some d) (.transportError m)).body.suggestions =
      some (generateAlternatives d) ∧
    generateAlternatives d ≠ [] := by
  have hc : ¬(d = "" ∨ containsDot d = false ∨ d.length < 3) := by
    push_neg
    exact ⟨hne, by simp [hdot], by omega⟩
  have hc0 : ¬(d = "" ∨ containsDot d = false) := by
    push_neg
    exact ⟨hne, by simp [hdot]⟩
  simp only [checkDomainServer, checkDomainPart000, checkDomainAvailability]
  rw [if_neg hc, if_neg hc]
  rw [if_neg hc0]
  exact ⟨rfl, rfl, rfl, rfl, generateAlternatives_ne_nil d hdot⟩

/-- C2 witness: the corrected behaviour evaluated at `example.com`. -/
theorem transport_failure_maps_to_500_witness :
    (checkDomainServer (some "example.com") (.transportError "t")).status = 500 ∧
    (checkDomainPart000 (some "example.com") (.transportError "t")).body.suggestions =
      some (generateAlternatives "example.com") ∧
    generateAlternatives "example.com" ≠ [] := by
  have h := transport_failure_maps_to_500 "example.com" "t"
    (by decide) (by decide) (by decide)
  exact ⟨h.1, h.2.2.2.1, h.2.2.2.2⟩

/-- C4 counterexample: src/unnamed/part_000 validates only presence and a
`.`; the two-character domain `a.` passes its guard, so the upstream
registrar is contacted and the response is not a 400, contradicting the
claim for domains shorter than 3 characters. -/
theorem short_domain_reaches_upstream :
    "a.".length < 3 ∧
    (checkDomainPart000 (some "a.") (.transportError "timeout")).upstreamCalled = true ∧
    (checkDomainPart000 (some "a.") (.transportError "timeout")).status = 500 := by
  decide

/-- C4 (corrected): src/server.js rejects a missing, dotless or sub-3-
character `domainName` with a 400 and no upstream call; the
src/unnamed/part_000 variant guarantees this only for a missing or
dotless name (its guard has no length test). -/
theorem invalid_domain_rejected (d : Option String) (up : UpstreamOutcome) :
    ((d = none ∨ ∃ s, d = some s ∧ (s = "" ∨ containsDot s = false ∨ s.length < 3)) →
      (checkDomainServer d up).status = 400 ∧ (checkDomainServer d up).upstreamCalled = false) ∧
    ((d = none ∨ ∃ s, d = some s ∧ (s = "" ∨ containsDot s = false)) →
      (checkDomainPart000 d up).status = 400 ∧ (checkDomainPart000 d up).upstreamCalled = false) := by
  constructor
  · rintro (rfl | ⟨s, rfl, hs⟩)
    · exact ⟨rfl, rfl⟩
    · simp only [checkDomainServer]
      rw [if_pos hs]
      exact ⟨rfl, rfl⟩
  · rintro (rfl | ⟨s, rfl, hs⟩)
    · exact ⟨rfl, rfl⟩
    · simp only [checkDomainPart000]
      rw [if_pos hs]
      exact ⟨rfl, rfl⟩

/-- C4 witness: the corrected claim evaluated at the dotless name `ab`. -/
theorem invalid_domain_rejected_witness :
    (checkDomainServer (some "ab") (.transportError "x")).status = 400 ∧
    (checkDomainServer (some "ab") (.transportError "x")).upstreamCalled = false ∧
    (checkDomainPart000 (some "ab") (.transportError "x")).status = 400 ∧
    (checkDomainPart000 (some "ab") (.transportError "x")).upstreamCalled = false := by
  have h1 := (invalid_domain_rejected (some "ab") (.transportError "x")).1
    (Or.inr ⟨"ab", rfl, by decide⟩)
  have h2 := (invalid_domain_rejected (some "ab") (.transportError "x")).2
    (Or.inr ⟨"ab", rfl, by decide⟩)
  exact ⟨h1.1, h1.2, h2.1, h2.2⟩

/-- C1 counterexample: a success payload carrying only the nested
`response.avail = "yes"` yields `available = false` from both handlers —
the nested shape is never consulted — contradicting the claim that it
yields `available = true`. -/
theorem nested_avail_not_recognized :
    nestedYesResponse.status = some "SUCCESS" ∧
    nestedYesResponse.respAvail = some "yes" ∧
    (checkDomainServer (some "example.com") (.response nestedYesResponse)).body.available
      = some false ∧
    (checkDomainPart000 (some "example.com") (.response nestedYesResponse)).body.available
      = some false := by
  decide

/-- C1 (corrected): under an upstream success status the handlers report
`available = true` exactly when the flat `available` field equals `"1"`;
the nested `response.avail` field is not read by any handler under src/,
so a payload with only `response.avail = "yes"` yields `available =
false`. -/
theorem flat_available_flag_only (d : String) (data : RawResponse)
    (hne : d ≠ "") (hdot : containsDot d = true) (hlen : 3 ≤ d.length)
    (hs : data.status = some "SUCCESS") :
    ((checkDomainServer (some d) (.response data)).body.available = some true ↔
      data.available = some "1") ∧
    ((checkDomainPart000 (some d) (.response data)).body.available = some true ↔
      data.available = some "1") := by
  have hc : ¬(d = "" ∨ containsDot d = false ∨ d.length < 3) := by
    push_neg
    exact ⟨hne, by simp [hdot], by omega⟩
  have hc0 : ¬(d = "" ∨ containsDot d = false) := by
    push_neg
    exact ⟨hne, by simp [hdot]⟩
  simp only [checkDomainServer, checkDomainPart000, checkDomainAvailability]
  rw [if_neg hc, if_neg hc, if_neg hc0]
  simp [hs]

/-- C1 witness: the corrected claim evaluated on the flat `"1"` shape. -/
theorem flat_available_flag_only_witness :
    (checkDomainServer (some "example.com") (.response availOneResponse)).body.available
      = some true :=
  ((flat_available_flag_only "example.com" availOneResponse
    (by decide) (by decide) (by decide) rfl).1).mpr rfl

/-- C8 (confirmed): an upstream response whose status is not `SUCCESS`
(and is not a transport error) produces a normal 200 result with
`available = false` and the upstream-provided message. -/
theorem upstream_failure_is_normal_result (d m : String) (data : RawResponse)
    (hne : d ≠ "") (hdot : containsDot d = true) (hlen : 3 ≤ d.length)
    (hs : ¬ data.status = some "SUCCESS") (hm : data.message = some m) (hmne : m ≠ "") :
    (checkDomainServer (some d) (.response data)).status = 200 ∧
    (checkDomainServer (some d) (.response data)).body.available = some false ∧
    (checkDomainServer (some d) (.response data)).body.error = some m := by
  have hc : ¬(d = "" ∨ containsDot d = false ∨ d.length < 3) := by
    push_neg
    exact ⟨hne, by simp [hdot], by omega⟩
  simp only [checkDomainServer, checkDomainAvailability]
  rw [if_neg hc, if_neg hc]
  simp [hs, messageOr, hm, hmne]

/-- C8 witness: the claim evaluated on a rate-limit failure payload. -/
theorem upstream_failure_is_normal_result_witness :
    (checkDomainServer (some "example.com") (.response upstreamErrorResponse)).status = 200 ∧
    (checkDomainServer (some "example.com") (.response upstreamErrorResponse)).body.available
      = some false ∧
    (checkDomainServer (some "example.com") (.response upstreamErrorResponse)).body.error
      = some "All checks are currently rate limited" :=
  upstream_failure_is_normal_result "example.com" "All checks are currently rate limited"
    upstreamErrorResponse (by decide) (by decide) (by decide) (by decide) rfl (by decide)

/-- C3 counterexample: a successful provisioning of `Acme Corp` reports
`channelName = "Acme Corp"` — the request's original name — although the
sanitized form actually used for creation is `acme-corp`, contradicting
the claim that the response field is the sanitized form. -/
theorem response_channelName_unsanitized :
    sanitizeChannelName "Acme Corp" = "acme-corp" ∧
    (createSlackChannelServer [] (some "Acme Corp") (some "client@acme.com")
      none none allOkWorld).body.success = some true ∧
    (createSlackChannelServer [] (some "Acme Corp") (some "client@acme.com")
      none none allOkWorld).body.channelName = some "Acme Corp" ∧
    some "Acme Corp" ≠ some (sanitizeChannelName "Acme Corp") := by
  decide

/-- C3 (corrected): the channel is created under the sanitized name — the
create call carries `sanitizeChannelName` of the request — but the
`channelName` field of the success response is the request's original
name, which may differ from the name of the channel actually created. -/
theorem response_keeps_requested_name (teamMembers : List String)
    (s email : String) (bn cl : Option String) (w : SlackWorld) (id : String)
    (hs : s ≠ "") (he : email ≠ "")
    (ha : w.authOk = true)
    (hid : (resolveChannel w (sanitizeChannelName s)).1 = .ok id) :
    (createSlackChannelServer teamMembers (some s) (some email) bn cl w).body.channelName
      = some s ∧
    ∃ rest, (createSlackChannelServer teamMembers (some s) (some email) bn cl w).calls =
      .authTest :: .create (sanitizeChannelName s) :: rest := by
  have hcond : ¬(falsyStr (some s) = true ∨ falsyStr (some email) = true) := by
    simp [falsyStr, hs, he]
  rcases hrc : resolveChannel w (sanitizeChannelName s) with ⟨r, cs⟩
  have hr : r = .ok id := by rw [hrc] at hid; exact hid
  subst hr
  have hcs : cs.head? = some (.create (sanitizeChannelName s)) := by
    have h := resolveChannel_calls_head w (sanitizeChannelName s)
    rw [hrc] at h
    exact h
  rcases cs with _ | ⟨c, cs'⟩
  · simp at hcs
  · have hc : c = .create (sanitizeChannelName s) := by simpa using hcs
    subst hc
    simp only [createSlackChannelServer, Option.getD_some]
    rw [if_neg hcond]
    simp only [ha]
    rw [hrc]
    refine ⟨by simp, ?_⟩
    exact ⟨cs' ++ (if teamMembers.isEmpty then [] else [SlackCall.inviteTeam id]) ++
      (match w.lookup with
       | .found uid => [SlackCall.lookupUser email, SlackCall.inviteUser id uid]
       | _ => [SlackCall.lookupUser email]) ++
      [SlackCall.postMessage id (welcomeMessage bn cl email)], by simp⟩

/-- C3 witness: the corrected claim evaluated at `Acme Corp`. -/
theorem response_keeps_requested_name_witness :
    (createSlackChannelServer [] (some "Acme Corp") (some "client@acme.com")
      none none allOkWorld).body.channelName = some "Acme Corp" ∧
    ∃ rest, (createSlackChannelServer [] (some "Acme Corp") (some "client@acme.com")
      none none allOkWorld).calls =
        .authTest :: .create (sanitizeChannelName "Acme Corp") :: rest :=
  response_keeps_requested_name [] "Acme Corp" "client@acme.com" none none
    allOkWorld "C1" (by decide) (by decide) rfl rfl

/-- C6 counterexample: `getOrCreateChannel` of src/unnamed/part_000 calls
`conversations.list` before any creation attempt — even in a world where
creation would succeed outright and no `name_taken` failure occurs — so
resolution does not first attempt creation, and listing is not
conditioned on a failed create. -/
theorem getOrCreateChannel_lists_first :
    (getOrCreateChannel gocWorld "acme-corp").2.head? = some SlackCall.list ∧
    (getOrCreateChannel gocWorld "acme-corp").2.head? ≠ some (SlackCall.create "acme-corp") ∧
    (getOrCreateChannel gocWorld "acme-corp").2 = [SlackCall.list, SlackCall.create "acme-corp"] ∧
    (getOrCreateChannel gocWorld "acme-corp").1 = Except.ok "C123" :=
  ⟨rfl, by decide, rfl, rfl⟩

/-- C6 (corrected): in src/server.js channel resolution first attempts
creation under the sanitized name; it lists existing channels if and only
if that creation was rejected with `name_taken`; on a name match it
returns the existing channel's id without a second create; with no match
it retries creation exactly once, under the name suffixed with the last 4
digits of the Unix timestamp.  The `getOrCreateChannel` helper of
src/unnamed/part_000 instead lists first unconditionally and never
disambiguates (see the counterexample). -/
theorem channel_resolution_contract (w : SlackWorld) (s : String) :
    ((resolveChannel w s).2.head? = some (.create s)) ∧
    (SlackCall.list ∈ (resolveChannel w s).2 ↔ w.createOutcome = .rejected "name_taken") ∧
    (∀ chans c, w.createOutcome = .rejected "name_taken" →
      w.listOutcome = .ok chans → chans.find? (fun p => p.1 = s) = some c →
      resolveChannel w s = (.ok c.2, [.create s, .list])) ∧
    (∀ chans, w.createOutcome = .rejected "name_taken" →
      w.listOutcome = .ok chans → chans.find? (fun p => p.1 = s) = none →
      (resolveChannel w s).2 =
        [.create s, .list, .create (s ++ "-" ++ lastFourDigits w.now)]) := by
  refine ⟨resolveChannel_calls_head w s, ?_, ?_, ?_⟩
  · rcases hco : w.createOutcome with id | e | er
    · simp [resolveChannel, hco]
    · simp [resolveChannel, hco]
    · by_cases hee : er = "name_taken"
      · subst hee
        rcases hl : w.listOutcome with m | chans
        · simp [resolveChannel, hco, hl]
        · rcases hf : chans.find? (fun c => c.1 = s) with _ | c
          · rcases hr : w.retryOutcome with m | id
            · simp [resolveChannel, hco, hl, hf, hr]
            · simp [resolveChannel, hco, hl, hf, hr]
          · simp [resolveChannel, hco, hl, hf]
      · simp [resolveChannel, hco, hee]
  · intro chans c hco hl hf
    simp [resolveChannel, hco, hl, hf]
  · intro chans hco hl hf
    rcases hr : w.retryOutcome with m | id
    · simp [resolveChannel, hco, hl, hf, hr]
    · simp [resolveChannel, hco, hl, hf, hr]

/-- C6 witness: in `takenWorld` the name is taken and `acme-corp` is
found among the existing channels, so resolution returns `C42` after
exactly one create attempt and one list. -/
theorem channel_resolution_contract_witness :
    resolveChannel takenWorld "acme-corp" =
      (.ok "C42", [.create "acme-corp", .list]) :=
  (channel_resolution_contract takenWorld "acme-corp").2.2.1
    [("acme-corp", "C42")] ("acme-corp", "C42") rfl rfl (by decide)

/-- C7 (confirmed): whenever channel resolution yields an id, the
provisioning endpoint reports 200 / `success = true` with that id, for
every outcome of the best-effort steps (which the response fields never
depend on); and when the client email resolves to no known user, no
client-invite call is issued. -/
theorem provisioning_reflects_resolution (teamMembers : List String)
    (s email : String) (bn cl : Option String) (w : SlackWorld) (id : String)
    (hs : s ≠ "") (he : email ≠ "")
    (ha : w.authOk = true)
    (hid : (resolveChannel w (sanitizeChannelName s)).1 = .ok id) :
    (createSlackChannelServer teamMembers (some s) (some email) bn cl w).status = 200 ∧
    (createSlackChannelServer teamMembers (some s) (some email) bn cl w).body.success
      = some true ∧
    (createSlackChannelServer teamMembers (some s) (some email) bn cl w).body.channelId
      = some id ∧
    (w.lookup = .notFound → ∀ ch uid,
      SlackCall.inviteUser ch uid ∉
        (createSlackChannelServer teamMembers (some s) (some email) bn cl w).calls) := by
  have hcond : ¬(falsyStr (some s) = true ∨ falsyStr (some email) = true) := by
    simp [falsyStr, hs, he]
  rcases hrc : resolveChannel w (sanitizeChannelName s) with ⟨r, cs⟩
  have hr : r = .ok id := by rw [hrc] at hid; exact hid
  subst hr
  have hninv : ∀ ch uid, SlackCall.inviteUser ch uid ∉ cs := by
    intro ch uid
    have h := resolveChannel_no_invite w (sanitizeChannelName s) ch uid
    rw [hrc] at h
    exact h
  simp only [createSlackChannelServer, Option.getD_some]
  rw [if_neg hcond]
  simp only [ha]
  rw [hrc]
  refine ⟨by simp, by simp, by simp, ?_⟩
  intro hlk ch uid
  simp only [hlk]
  simp [List.mem_cons, List.mem_append, hninv ch uid]

/-- C7 witness: provisioning `Acme Corp` in `allOkWorld` (whose lookup
finds no user) succeeds with id `C1` and no client invite. -/
theorem provisioning_reflects_resolution_witness :
    (createSlackChannelServer [] (some "Acme Corp") (some "client@acme.com")
      none none allOkWorld).status = 200 ∧
    (createSlackChannelServer [] (some "Acme Corp") (some "client@acme.com")
      none none allOkWorld).body.success = some true ∧
    (createSlackChannelServer [] (some "Acme Corp") (some "client@acme.com")
      none none allOkWorld).body.channelId = some "C1" ∧
    (∀ ch uid, SlackCall.inviteUser ch uid ∉
      (createSlackChannelServer [] (some "Acme Corp") (some "client@acme.com")
        none none allOkWorld).calls) := by
  have h := provisioning_reflects_resolution [] "Acme Corp" "client@acme.com"
    none none allOkWorld "C1" (by decide) (by decide) rfl rfl
  exact ⟨h.1, h.2.1, h.2.2.1, h.2.2.2 rfl⟩

/-- C9 (confirmed, modelled from the spec; no src/ file carries the
price-gate variant): with price gating enabled and ceiling 15.00, an
upstream success with affirmative availability flag and price `"20.00"`
evaluates to `available = false` with reason `"price"`; and whenever the
price fails to parse, the gated evaluator never reports available. -/
theorem price_gate_forces_unavailable (data : RawResponse) (ceiling : ℚ)
    (hs : data.status = some "SUCCESS")
    (hflag : data.available = some "1" ∨ data.respAvail = some "yes")
    (hp : priceSource data = some "20.00") :
    evaluateWithPriceGate true 15 data = (false, some "price") ∧
    (∀ d2 : RawResponse, (priceSource d2).bind parseDecimal = none →
      (evaluateWithPriceGate true ceiling d2).1 = false) := by
  constructor
  · simp only [evaluateWithPriceGate, hs, if_pos hflag, hp, Option.some_bind,
      parseDecimal_twenty]
    norm_num
  · intro d2 h2
    by_cases h2s : d2.status = some "SUCCESS"
    · by_cases h2f : d2.available = some "1" ∨ d2.respAvail = some "yes"
      · simp [evaluateWithPriceGate, h2s, if_pos h2f, h2]
      · simp [evaluateWithPriceGate, h2s, if_neg h2f]
    · simp [evaluateWithPriceGate, h2s]

/-- C9 witness: the gate evaluated on a `"20.00"`-priced payload and on a
payload with no parseable price. -/
theorem price_gate_forces_unavailable_witness :
    evaluateWithPriceGate true 15 pricedResponse = (false, some "price") ∧
    (evaluateWithPriceGate true 15 noPriceResponse).1 = false := by
  have h := price_gate_forces_unavailable pricedResponse 15 rfl (Or.inl rfl) rfl
  exact ⟨h.1, h.2 noPriceResponse rfl⟩

/-- C10 (confirmed): the Slack channel-name sanitization — lowercase,
replace every character outside `[a-z0-9-_]` with `-`, truncate to 80
characters — is idempotent. -/
theorem sanitizeChannelName_idempotent (s : String) :
    sanitizeChannelName (sanitizeChannelName s) = sanitizeChannelName s := by
  have hfun : replaceDisallowed ∘ jsToLower ∘ replaceDisallowed ∘ jsToLower =
      replaceDisallowed ∘ jsToLower := funext sanitize_char_idem
  simp only [sanitizeChannelName, List.map_take, List.take_take, List.map_map, min_self]
  rw [hfun]

end Onboarding
